import Mathlib

/-!
Verification of the TikTok-downloader relay service (src/app.py) against its
natural-language specification.

The Python source is shallowly embedded: dictionaries become association
lists of string pairs, `None`-able values become `Option`, the on-disk JSON
cache becomes a function from key strings to optional entries carrying their
mtime, network calls become oracle parameters, and Python exceptions become
`Except` / `Option` results.  Wall-clock time is an explicit `now : Nat`
argument and IO write failures are an explicit `writeOk : Bool` oracle.
-/

namespace Tikwm

/-- A Python dict with string keys and string values, as used for the fetch
results built by `fetch_from_tikwm` and stored in the JSON cache. -/
abbrev Dict := List (String × String)

/-- Python truthiness of `result and 'video_url' in result` (app.py line 61):
`None` and the empty dict are falsy; otherwise key membership is tested. -/
def shouldCache (result : Option Dict) : Bool :=
  match result with
  | none => false
  | some d => !d.isEmpty && (List.lookup "video_url" d).isSome

/-- `CACHE_EXPIRY = 3600` (app.py line 30). -/
def CACHE_EXPIRY : Nat := 3600

/-- `re.sub(r'[^a-zA-Z0-9]', '_', url)` acting on one character
(app.py line 43): anything outside `[a-zA-Z0-9]` becomes `_`.
`Char.isAlphanum` is exactly the ASCII class `[a-zA-Z0-9]`. -/
def cacheKeyChar (c : Char) : Char :=
  if c.isAlphanum then c else '_'

/-- The cache key `re.sub(r'[^a-zA-Z0-9]', '_', url)` (app.py line 43). -/
def cacheKey (url : String) : String :=
  String.mk (url.data.map cacheKeyChar)

/-- One on-disk cache file: its mtime and its content.  `content = none`
models a file whose read fails (malformed JSON or an IO error,
app.py lines 50-55). -/
structure CacheEntry where
  mtime : Nat
  content : Option Dict
deriving Repr, DecidableEq

/-- The cache directory: a map from file key to the file, `none` meaning the
file does not exist. -/
def CacheState := String → Option CacheEntry

/-- Writing one cache file (`json.dump(result, f)`, app.py lines 63-64):
the file's content becomes the dumped dict and its mtime the current time. -/
def CacheState.put (st : CacheState) (k : String) (e : CacheEntry) : CacheState :=
  fun k2 => if k2 = k then some e else st k2

/-- What one call of the `cache_result` wrapper produces: the value returned
to the caller, whether the wrapped upstream function was invoked, and the
cache directory afterwards. -/
structure WrapperOutcome where
  result : Option Dict
  upstreamCalled : Bool
  cache : CacheState

/-- The fresh-cache probe of the wrapper (app.py lines 47-55): if the file
exists, its age is below `CACHE_EXPIRY`, and it reads back successfully, the
cached dict is used; a read failure (`content = none`) falls through. -/
def freshCached (now : Nat) (st : CacheState) (url : String) : Option Dict :=
  match st (cacheKey url) with
  | some entry => if now - entry.mtime < CACHE_EXPIRY then entry.content else none
  | none => none

/-- The `cache_result` decorator's wrapper (app.py lines 36-71).  `fetch` is
the value the wrapped function returns when invoked; `writeOk = false` models
an `IOError` while writing the cache file (absorbed, lines 66-67). -/
def cache_result (now : Nat) (writeOk : Bool) (st : CacheState)
    (fetch : Option Dict) (url : String) : WrapperOutcome :=
  match freshCached now st url with
  | some d => ⟨some d, false, st⟩
  | none =>
    let st2 : CacheState :=
      if shouldCache fetch then
        if writeOk then
          st.put (cacheKey url) ⟨now, fetch⟩
        else st
      else st
    ⟨fetch, true, st2⟩

/-- The `data` object of a well-formed TikWM payload
(fields read at app.py lines 167-172). -/
structure UpstreamData where
  play : String
  cover : String
  author_unique_id : String
  title : String
  id : String
deriving Repr, DecidableEq

/-- The JSON payload of an HTTP 200 upstream answer.  `data = none` models a
payload whose `data` member is missing or falsy; `code` is `none` when the
`code` member is missing. -/
structure TikwmPayload where
  code : Option Int
  data : Option UpstreamData
deriving Repr, DecidableEq

/-- What `requests.post` to the TikWM API can produce: a transport exception,
or an HTTP answer with a status code and a JSON payload. -/
inductive UpstreamResponse where
  | transportError
  | http (status : Nat) (body : TikwmPayload)
deriving Repr, DecidableEq

/-- The body of `fetch_from_tikwm` (app.py lines 134-177), undecorated: the
transport exception and any non-200 status or malformed/error payload yield
`None`; a good answer yields the six-field result dict. -/
def fetch_from_tikwm_raw (resp : UpstreamResponse) : Option Dict :=
  match resp with
  | .transportError => none
  | .http status body =>
    if status ≠ 200 then none
    else
      match body.data with
      | none => none
      | some vd =>
        if body.code ≠ some 0 then none
        else some [("video_url", vd.play), ("cover_url", vd.cover),
                   ("author", vd.author_unique_id), ("desc", vd.title),
                   ("video_id", vd.id), ("method", "tikwm")]

/-- `upstreamFailed resp` holds exactly when the upstream call failed in one
of the three ways of app.py lines 142-163: transport exception, non-200
status, or a payload with falsy `data` or `code != 0`. -/
def upstreamFailed : UpstreamResponse → Bool
  | .transportError => true
  | .http status body => status ≠ 200 || body.data.isNone || body.code ≠ some 0

/-- Python's `pat in s` substring test, scanning left to right. -/
def pyContainsList (pat : List Char) : List Char → Bool
  | [] => pat.isEmpty
  | c :: rest => pat.isPrefixOf (c :: rest) || pyContainsList pat rest

/-- Python's `pat in s` on strings (as in `'vm.tiktok.com' in tiktok_url`,
app.py line 232). -/
def pyContains (s pat : String) : Bool :=
  pyContainsList pat.data s.data

/-- Python's `s.split('//')`, specialised to the separator `'//'` used at
app.py line 234: cut at every non-overlapping occurrence of two slashes. -/
def splitDSlashAux (acc : List Char) : List Char → List (List Char)
  | [] => [acc.reverse]
  | [c] => [(c :: acc).reverse]
  | c1 :: c2 :: rest =>
    if c1 == '/' && c2 == '/' then acc.reverse :: splitDSlashAux [] rest
    else splitDSlashAux (c1 :: acc) (c2 :: rest)

/-- `url.split('//')` (app.py line 234). -/
def splitDSlash (s : List Char) : List (List Char) :=
  splitDSlashAux [] s

/-- `x.split('/')[0]` (app.py line 234): the characters before the first
slash (index 0 of a Python split always exists). -/
def takeUntilSlash : List Char → List Char
  | [] => []
  | c :: rest => if c = '/' then [] else c :: takeUntilSlash rest

/-- Whether the string contains `'//'`; used to state when
`url.split('//')[1]` raises `IndexError`. -/
def containsDSlash : List Char → Bool
  | [] => false
  | [_] => false
  | c1 :: c2 :: rest => (c1 == '/' && c2 == '/') || containsDSlash (c2 :: rest)

/-- The short-link test of the handler (app.py lines 232-234):
`'vm.tiktok.com' in url or 'vt.tiktok.com' in url or
len(url.split('//')[1].split('/')[0]) < 15`.  The third disjunct is only
evaluated when the first two are false, and raises `IndexError` when the
split produces a single element (no `'//'` in the url). -/
def shortlinkCheck (url : String) : Except String Bool :=
  if pyContains url "vm.tiktok.com" || pyContains url "vt.tiktok.com" then
    .ok true
  else
    match splitDSlash url.data with
    | _ :: afterHost :: _ => .ok ((takeUntilSlash afterHost).length < 15)
    | _ => .error "IndexError"

/-- The whitespace class of Python's `str.strip()` (ASCII part; exotic
Unicode space characters are not exercised by this program). -/
def pyIsSpace (c : Char) : Bool :=
  c == ' ' || c == '\t' || c == '\n' || c == '\r' || c == '\x0b' || c == '\x0c'

/-- Python's `s.strip()` (app.py line 228): drop leading and trailing
whitespace. -/
def pyStrip (s : String) : String :=
  String.mk (((s.data.dropWhile pyIsSpace).reverse.dropWhile pyIsSpace).reverse)

/-- A JSON value appearing in a response body: a string or a boolean. -/
inductive JVal where
  | s (v : String)
  | b (v : Bool)
deriving Repr, DecidableEq

/-- A JSON response body, as built by `jsonify`. -/
abbrev Body := List (String × JVal)

/-- The `{'success': False, 'error': msg}` bodies of app.py. -/
def errorBody (msg : String) : Body :=
  [("success", .b false), ("error", .s msg)]

/-- The error message of the 500 answer (app.py lines 260-263). -/
def failMsg : String :=
  "Failed to download TikTok video. Please try a different video or URL format."

/-- Parameter validation of the handler (app.py lines 206-228):
`if not params or not params.get('url')` — a missing/empty params dict, a
missing `url` key, or an empty `url` value all fail; otherwise the raw url
string is extracted. -/
def validateUrl (params : Option Dict) : Option String :=
  match params with
  | none => none
  | some p =>
    if p.isEmpty then none
    else
      match List.lookup "url" p with
      | none => none
      | some u => if u = "" then none else some u

/-- The response shaping of app.py lines 243-264:
`if tikwm_result and tikwm_result.get('video_url')` builds the 200 success
body, anything else the 500 failure body.  An absent or empty `video_url`
value is falsy in Python and hence a failure. -/
def makeResponse (result : Option Dict) : Nat × Body :=
  match result with
  | none => (500, errorBody failMsg)
  | some d =>
    match List.lookup "video_url" d with
    | none => (500, errorBody failMsg)
    | some v =>
      if v = "" then (500, errorBody failMsg)
      else
        (200, [("success", .b true), ("video_url", .s v),
               ("cover_url", .s ((List.lookup "cover_url" d).getD "")),
               ("author", .s ((List.lookup "author" d).getD "")),
               ("desc", .s ((List.lookup "desc" d).getD "")),
               ("video_id", .s ((List.lookup "video_id" d).getD "")),
               ("method", .s "tikwm")])

/-- What one run of the `download_tiktok` handler produces: the HTTP answer
(`Except.error` being an uncaught Python exception escaping the handler),
the cache directory afterwards, how many times `follow_tiktok_redirects`
was invoked, and the url handed to `fetch_from_tikwm` (if it was reached). -/
structure HandlerOutcome where
  resp : Except String (Nat × Body)
  cache : CacheState
  redirectCalls : Nat
  fetchArg : Option String

/-- The `download_tiktok` handler (app.py lines 199-264).  `resolve` is the
oracle for `follow_tiktok_redirects` (which returns the resolved url, or the
original url on a network failure); `upstream` is the oracle for the TikWM
HTTP call made on a cache miss; `now`, `writeOk` and `st` parametrise the
cache as in `cache_result`. -/
def download_tiktok (params : Option Dict) (resolve : String → String)
    (now : Nat) (writeOk : Bool) (upstream : String → UpstreamResponse)
    (st : CacheState) : HandlerOutcome :=
  match validateUrl params with
  | none => ⟨.ok (400, errorBody "TikTok URL is required."), st, 0, none⟩
  | some u =>
    let tiktok_url := pyStrip u
    match shortlinkCheck tiktok_url with
    | .error e => ⟨.error e, st, 0, none⟩
    | .ok follow =>
      let fin := if follow then resolve tiktok_url else tiktok_url
      let o := cache_result now writeOk st (fetch_from_tikwm_raw (upstream fin)) fin
      ⟨.ok (makeResponse o.result), o.cache, if follow then 1 else 0, some fin⟩

/-- Python's `s.replace(pat, rep)` for a non-empty `pat`, scanning left to
right and skipping past each replacement; `fuel` bounds the recursion and is
instantiated with the length of `s`, which suffices because every step
consumes at least one character of `s`. -/
def pyReplaceFuel (pat rep : List Char) : Nat → List Char → List Char
  | 0, s => s
  | _ + 1, [] => []
  | fuel + 1, c :: rest =>
    if pat.isPrefixOf (c :: rest) then
      rep ++ pyReplaceFuel pat rep fuel ((c :: rest).drop pat.length)
    else c :: pyReplaceFuel pat rep fuel rest

/-- Python's `s.replace(pat, rep)` on strings (for the non-empty patterns
used at app.py lines 81-82). -/
def pyReplace (s pat rep : String) : String :=
  String.mk (pyReplaceFuel pat.data rep.data s.data.length s.data)

/-- The url normalisation of `extract_tiktok_id` (app.py lines 80-82):
`url.replace('m.tiktok.com', 'www.tiktok.com')` followed by
`.replace('vm.tiktok.com', 'www.tiktok.com')`.  This function is defined in
app.py but never invoked by `download_tiktok`. -/
def normalize_url (url : String) : String :=
  pyReplace (pyReplace url "m.tiktok.com" "www.tiktok.com") "vm.tiktok.com" "www.tiktok.com"

/-- Two character sequences "differ only in their alphanumeric content":
they have the same length and at every position they either agree or both
hold a character of the class `[a-zA-Z0-9]` kept verbatim by the cache-key
substitution. -/
def differOnlyAlnum : List Char → List Char → Bool
  | [], [] => true
  | [], _ :: _ => false
  | _ :: _, [] => false
  | a :: u, b :: v => (a == b || (a.isAlphanum && b.isAlphanum)) && differOnlyAlnum u v

/-! ## Helper lemmas -/

lemma CacheState.put_same (st : CacheState) (k : String) (e : CacheEntry) :
    st.put k e k = some e := by
  simp [CacheState.put]

lemma lookup_isSome_not_empty {d : Dict}
    (h : (List.lookup "video_url" d).isSome = true) : d.isEmpty = false := by
  cases d with
  | nil => simp [List.lookup] at h
  | cons a l => rfl

lemma shouldCache_some {d : Dict}
    (h : (List.lookup "video_url" d).isSome = true) : shouldCache (some d) = true := by
  simp [shouldCache, h, lookup_isSome_not_empty h]

lemma shouldCache_false (fetch : Option Dict)
    (h : ∀ d, fetch = some d → List.lookup "video_url" d = none) :
    shouldCache fetch = false := by
  cases fetch with
  | none => rfl
  | some d => simp [shouldCache, h d rfl]

lemma freshCached_of_entry (now : Nat) (st : CacheState) (url : String)
    (entry : CacheEntry) (hent : st (cacheKey url) = some entry) :
    freshCached now st url =
      if now - entry.mtime < CACHE_EXPIRY then entry.content else none := by
  unfold freshCached
  rw [hent]

lemma cache_result_hit (now : Nat) (writeOk : Bool) (st : CacheState)
    (fetch : Option Dict) (url : String) (d : Dict)
    (h : freshCached now st url = some d) :
    cache_result now writeOk st fetch url = ⟨some d, false, st⟩ := by
  unfold cache_result
  rw [h]

lemma cache_result_miss (now : Nat) (writeOk : Bool) (st : CacheState)
    (fetch : Option Dict) (url : String)
    (h : freshCached now st url = none) :
    cache_result now writeOk st fetch url =
      ⟨fetch, true,
        if shouldCache fetch then
          (if writeOk then st.put (cacheKey url) ⟨now, fetch⟩ else st)
        else st⟩ := by
  unfold cache_result
  rw [h]

lemma map_cacheKeyChar_inj : ∀ u v : List Char, differOnlyAlnum u v = true →
    u.map cacheKeyChar = v.map cacheKeyChar → u = v
  | [], [], _, _ => rfl
  | [], _ :: _, h, _ => by simp [differOnlyAlnum] at h
  | _ :: _, [], h, _ => by simp [differOnlyAlnum] at h
  | a :: u, b :: v, h, he => by
    simp only [differOnlyAlnum, Bool.and_eq_true, Bool.or_eq_true, beq_iff_eq] at h
    simp only [List.map_cons, List.cons.injEq] at he
    obtain ⟨hab, htl⟩ := h
    obtain ⟨h1, h2⟩ := he
    have hhead : a = b := by
      rcases hab with h | ⟨ha, hb⟩
      · exact h
      · simpa [cacheKeyChar, ha, hb] using h1
    rw [hhead, map_cacheKeyChar_inj u v htl h2]

/-! ## Claims -/

/-- C4. Cache-key derivation (`re.sub(r'[^a-zA-Z0-9]', '_', url)`,
app.py line 43) is a deterministic function of the URL, and it is
injective on any pair of distinct URLs that differ only in their
alphanumeric content: two such URLs always get distinct cache keys. -/
theorem cache_key_deterministic_injective (u v : String)
    (h : differOnlyAlnum u.data v.data = true) (hne : u ≠ v) :
    (∀ w₁ w₂ : String, w₁ = w₂ → cacheKey w₁ = cacheKey w₂) ∧
    cacheKey u ≠ cacheKey v := by
  refine ⟨fun w₁ w₂ hw => by rw [hw], ?_⟩
  intro hk
  apply hne
  have hd : u.data.map cacheKeyChar = v.data.map cacheKeyChar := by
    simpa [cacheKey] using congrArg String.data hk
  have hdata := map_cacheKeyChar_inj u.data v.data h hd
  obtain ⟨du⟩ := u
  obtain ⟨dv⟩ := v
  exact congrArg String.mk (by simpa using hdata)

/-- Witness for C4 on the concrete pair `"a-b"` / `"c-d"`: they differ only
in alphanumeric characters, are distinct, and get distinct cache keys. -/
theorem cache_key_deterministic_injective_witness :
    differOnlyAlnum "a-b".data "c-d".data = true ∧ "a-b" ≠ "c-d" ∧
    ((∀ w₁ w₂ : String, w₁ = w₂ → cacheKey w₁ = cacheKey w₂) ∧
      cacheKey "a-b" ≠ cacheKey "c-d") :=
  ⟨by decide, by decide,
    cache_key_deterministic_injective "a-b" "c-d" (by decide) (by decide)⟩

/-- C1. On a cache miss (the only situation in which the wrapped upstream
fetch runs, app.py lines 57-69), the `cache_result` wrapper writes the cache
entry for the URL if and only if the fetched result is non-null and contains
the key `'video_url'`: a result with a `'video_url'` key is stored under the
URL's cache key with the current mtime, and a null result or one lacking the
key leaves every cache file untouched.  (`writeOk = true`: the write itself
does not fail.) -/
theorem cache_write_iff_video_url (now : Nat) (st : CacheState) (url : String)
    (fetch : Option Dict) (hmiss : freshCached now st url = none) :
    (cache_result now true st fetch url).upstreamCalled = true
    ∧ (∀ d, fetch = some d → (List.lookup "video_url" d).isSome = true →
        (cache_result now true st fetch url).cache (cacheKey url) = some ⟨now, some d⟩)
    ∧ ((∀ d, fetch = some d → List.lookup "video_url" d = none) →
        ∀ k, (cache_result now true st fetch url).cache k = st k) := by
  rw [cache_result_miss now true st fetch url hmiss]
  refine ⟨rfl, ?_, ?_⟩
  · intro d hd hvd
    subst hd
    simp [shouldCache_some hvd, CacheState.put]
  · intro hno k
    simp [shouldCache_false fetch hno]

/-- Witness for C1 on an empty cache, a result holding a `'video_url'`
key, and the URL `"u"`. -/
theorem cache_write_iff_video_url_witness :
    freshCached 0 (fun _ => none) "u" = none ∧
    ((cache_result 0 true (fun _ => none) (some [("video_url", "x")]) "u").upstreamCalled = true
    ∧ (∀ d, (some [("video_url", "x")] : Option Dict) = some d →
        (List.lookup "video_url" d).isSome = true →
        (cache_result 0 true (fun _ => none) (some [("video_url", "x")]) "u").cache
          (cacheKey "u") = some ⟨0, some d⟩)
    ∧ ((∀ d, (some [("video_url", "x")] : Option Dict) = some d →
          List.lookup "video_url" d = none) →
        ∀ k, (cache_result 0 true (fun _ => none) (some [("video_url", "x")]) "u").cache k
          = (fun _ => none : CacheState) k)) :=
  ⟨rfl, cache_write_iff_video_url 0 (fun _ => none) "u" (some [("video_url", "x")]) rfl⟩

/-- C3. For a URL whose cache file exists and reads back as `d`
(app.py lines 47-55): when its age `now - mtime` is strictly below
`CACHE_EXPIRY = 3600`, the cached `d` is returned and the upstream function
is not invoked; when its age is 3600 or more, the upstream function is
invoked and a successful result (one carrying a `'video_url'` key,
with the write not failing) overwrites the entry. -/
theorem cache_fresh_hit_stale_refresh (now : Nat) (st : CacheState) (url : String)
    (fetch : Option Dict) (entry : CacheEntry) (d : Dict)
    (hent : st (cacheKey url) = some entry) (hread : entry.content = some d) :
    (now - entry.mtime < CACHE_EXPIRY →
      (cache_result now true st fetch url).result = some d
      ∧ (cache_result now true st fetch url).upstreamCalled = false)
    ∧ (CACHE_EXPIRY ≤ now - entry.mtime →
      (cache_result now true st fetch url).upstreamCalled = true
      ∧ ∀ d2, fetch = some d2 → (List.lookup "video_url" d2).isSome = true →
          (cache_result now true st fetch url).cache (cacheKey url) = some ⟨now, some d2⟩) := by
  constructor
  · intro hfresh
    have h : freshCached now st url = some d := by
      rw [freshCached_of_entry now st url entry hent, if_pos hfresh, hread]
    rw [cache_result_hit now true st fetch url d h]
    exact ⟨rfl, rfl⟩
  · intro hstale
    have h : freshCached now st url = none := by
      rw [freshCached_of_entry now st url entry hent, if_neg (Nat.not_lt.mpr hstale)]
    rw [cache_result_miss now true st fetch url h]
    refine ⟨rfl, ?_⟩
    intro d2 hd2 hvd
    subst hd2
    simp [shouldCache_some hvd, CacheState.put]

/-- Witness for C3 on a concrete cache holding `[("video_url", "x")]` at
mtime 0, probed once at `now = 10` (fresh) and once at `now = 5000`
(stale). -/
theorem cache_fresh_hit_stale_refresh_witness :
    ((fun _ => some ⟨0, some [("video_url", "x")]⟩ : CacheState) (cacheKey "u")
        = some ⟨0, some [("video_url", "x")]⟩)
    ∧ ((10 - (0 : Nat) < CACHE_EXPIRY →
        (cache_result 10 true (fun _ => some ⟨0, some [("video_url", "x")]⟩)
            (some [("video_url", "y")]) "u").result = some [("video_url", "x")]
        ∧ (cache_result 10 true (fun _ => some ⟨0, some [("video_url", "x")]⟩)
            (some [("video_url", "y")]) "u").upstreamCalled = false)
      ∧ (CACHE_EXPIRY ≤ 10 - (0 : Nat) →
        (cache_result 10 true (fun _ => some ⟨0, some [("video_url", "x")]⟩)
            (some [("video_url", "y")]) "u").upstreamCalled = true
        ∧ ∀ d2, (some [("video_url", "y")] : Option Dict) = some d2 →
            (List.lookup "video_url" d2).isSome = true →
            (cache_result 10 true (fun _ => some ⟨0, some [("video_url", "x")]⟩)
                (some [("video_url", "y")]) "u").cache (cacheKey "u")
              = some ⟨10, some d2⟩))
    ∧ (CACHE_EXPIRY ≤ 5000 - (0 : Nat) →
        (cache_result 5000 true (fun _ => some ⟨0, some [("video_url", "x")]⟩)
            (some [("video_url", "y")]) "u").upstreamCalled = true
        ∧ ∀ d2, (some [("video_url", "y")] : Option Dict) = some d2 →
            (List.lookup "video_url" d2).isSome = true →
            (cache_result 5000 true (fun _ => some ⟨0, some [("video_url", "x")]⟩)
                (some [("video_url", "y")]) "u").cache (cacheKey "u")
              = some ⟨5000, some d2⟩) :=
  ⟨rfl,
   cache_fresh_hit_stale_refresh 10 (fun _ => some ⟨0, some [("video_url", "x")]⟩) "u"
     (some [("video_url", "y")]) ⟨0, some [("video_url", "x")]⟩ [("video_url", "x")] rfl rfl,
   (cache_fresh_hit_stale_refresh 5000 (fun _ => some ⟨0, some [("video_url", "x")]⟩) "u"
     (some [("video_url", "y")]) ⟨0, some [("video_url", "x")]⟩ [("video_url", "x")] rfl rfl).2⟩

/-- C8. Errors inside the cache wrapper are absorbed (app.py lines 50-55 and
62-67): a cache file that exists and is fresh but fails to read
(`content = none`, covering malformed JSON and IO errors) makes the wrapper
fall through to a fresh upstream invocation whose result is returned, and a
failing cache write (`writeOk = false`) still returns the fetched result to
the caller and leaves every cache file unchanged; the wrapper is a total
function, so neither error escapes it. -/
theorem cache_errors_absorbed (now : Nat) (st : CacheState) (url : String)
    (fetch : Option Dict) (entry : CacheEntry)
    (hent : st (cacheKey url) = some entry)
    (hfresh : now - entry.mtime < CACHE_EXPIRY)
    (hbad : entry.content = none) :
    (cache_result now false st fetch url).upstreamCalled = true
    ∧ (cache_result now false st fetch url).result = fetch
    ∧ ∀ k, (cache_result now false st fetch url).cache k = st k := by
  have h : freshCached now st url = none := by
    rw [freshCached_of_entry now st url entry hent, if_pos hfresh, hbad]
  rw [cache_result_miss now false st fetch url h]
  refine ⟨rfl, rfl, fun k => ?_⟩
  simp

/-- Witness for C8: a fresh but unreadable cache file at mtime 0, probed at
`now = 10` with a failing write. -/
theorem cache_errors_absorbed_witness :
    ((fun _ => some ⟨0, none⟩ : CacheState) (cacheKey "u") = some ⟨0, none⟩)
    ∧ (10 - (0 : Nat) < CACHE_EXPIRY)
    ∧ ((⟨0, none⟩ : CacheEntry).content = none)
    ∧ ((cache_result 10 false (fun _ => some ⟨0, none⟩) (some [("video_url", "x")]) "u").upstreamCalled = true
      ∧ (cache_result 10 false (fun _ => some ⟨0, none⟩) (some [("video_url", "x")]) "u").result
          = some [("video_url", "x")]
      ∧ ∀ k, (cache_result 10 false (fun _ => some ⟨0, none⟩) (some [("video_url", "x")]) "u").cache k
          = (fun _ => some ⟨0, none⟩ : CacheState) k) :=
  ⟨rfl, by decide, rfl,
   cache_errors_absorbed 10 (fun _ => some ⟨0, none⟩) "u" (some [("video_url", "x")])
     ⟨0, none⟩ rfl (by decide) rfl⟩

lemma fetch_none_of_failed (resp : UpstreamResponse)
    (h : upstreamFailed resp = true) : fetch_from_tikwm_raw resp = none := by
  cases resp with
  | transportError => rfl
  | http status body =>
    unfold fetch_from_tikwm_raw
    by_cases hs : status = 200
    · cases hd : body.data with
      | none => simp [hs, hd]
      | some vd =>
        have hc : body.code ≠ some 0 := by
          simp [upstreamFailed, hs, hd] at h
          simpa using h
        simp [hs, hd, hc]
    · simp [hs]

lemma download_tiktok_on_valid (u : String) (resolve : String → String)
    (now : Nat) (writeOk : Bool) (upstream : String → UpstreamResponse)
    (st : CacheState) (follow : Bool)
    (hu : u ≠ "") (hcheck : shortlinkCheck (pyStrip u) = .ok follow) :
    download_tiktok (some [("url", u)]) resolve now writeOk upstream st =
      ⟨.ok (makeResponse (cache_result now writeOk st
          (fetch_from_tikwm_raw (upstream (if follow then resolve (pyStrip u) else pyStrip u)))
          (if follow then resolve (pyStrip u) else pyStrip u)).result),
       (cache_result now writeOk st
          (fetch_from_tikwm_raw (upstream (if follow then resolve (pyStrip u) else pyStrip u)))
          (if follow then resolve (pyStrip u) else pyStrip u)).cache,
       if follow then 1 else 0,
       some (if follow then resolve (pyStrip u) else pyStrip u)⟩ := by
  unfold download_tiktok validateUrl
  simp [List.lookup, hu, hcheck]

/-- C2. For every URL reaching the fetch with a cold cache: if the upstream
call fails in any of the three ways of app.py lines 142-163 (non-200 status,
payload with falsy `data` or `code != 0`, or a transport exception), then
`fetch_from_tikwm` returns a null result, no cache file is created or
changed, and the handler answers with the `success: false` body and HTTP
status 500 (app.py lines 258-264). -/
theorem upstream_failure_maps_to_500 (u : String) (resolve : String → String)
    (now : Nat) (writeOk : Bool) (upstream : String → UpstreamResponse)
    (st : CacheState) (follow : Bool)
    (hu : u ≠ "") (hcheck : shortlinkCheck (pyStrip u) = .ok follow)
    (hfail : upstreamFailed (upstream (if follow then resolve (pyStrip u) else pyStrip u)) = true)
    (hmiss : st (cacheKey (if follow then resolve (pyStrip u) else pyStrip u)) = none) :
    fetch_from_tikwm_raw (upstream (if follow then resolve (pyStrip u) else pyStrip u)) = none
    ∧ (download_tiktok (some [("url", u)]) resolve now writeOk upstream st).resp
        = .ok (500, errorBody failMsg)
    ∧ ∀ k, (download_tiktok (some [("url", u)]) resolve now writeOk upstream st).cache k
        = st k := by
  have hf := fetch_none_of_failed _ hfail
  have hfc : freshCached now st (if follow then resolve (pyStrip u) else pyStrip u) = none := by
    unfold freshCached
    rw [hmiss]
  rw [download_tiktok_on_valid u resolve now writeOk upstream st follow hu hcheck]
  rw [cache_result_miss now writeOk st _ _ hfc]
  refine ⟨hf, ?_, fun k => ?_⟩
  · simp [hf, makeResponse]
  · simp [hf, shouldCache]

/-- Witness for C2: the URL `"https://www.tiktok.com/@user/video/1234"`
against an upstream answering `code = -1`, with an empty cache and the
identity redirect oracle. -/
theorem upstream_failure_maps_to_500_witness :
    ("https://www.tiktok.com/@user/video/1234" ≠ "")
    ∧ (shortlinkCheck (pyStrip "https://www.tiktok.com/@user/video/1234") = .ok true)
    ∧ (upstreamFailed ((fun _ => .http 200 ⟨some (-1), some ⟨"P", "C", "a", "t", "i"⟩⟩ :
          String → UpstreamResponse)
        (if true then (fun w => w) (pyStrip "https://www.tiktok.com/@user/video/1234")
         else pyStrip "https://www.tiktok.com/@user/video/1234")) = true)
    ∧ (fetch_from_tikwm_raw ((fun _ => .http 200 ⟨some (-1), some ⟨"P", "C", "a", "t", "i"⟩⟩ :
          String → UpstreamResponse)
        (if true then (fun w => w) (pyStrip "https://www.tiktok.com/@user/video/1234")
         else pyStrip "https://www.tiktok.com/@user/video/1234")) = none
      ∧ (download_tiktok (some [("url", "https://www.tiktok.com/@user/video/1234")])
          (fun w => w) 0 true
          (fun _ => .http 200 ⟨some (-1), some ⟨"P", "C", "a", "t", "i"⟩⟩)
          (fun _ => none)).resp = .ok (500, errorBody failMsg)
      ∧ ∀ k, (download_tiktok (some [("url", "https://www.tiktok.com/@user/video/1234")])
          (fun w => w) 0 true
          (fun _ => .http 200 ⟨some (-1), some ⟨"P", "C", "a", "t", "i"⟩⟩)
          (fun _ => none)).cache k = (fun _ => none : CacheState) k) :=
  ⟨by decide, rfl, by decide,
   upstream_failure_maps_to_500 "https://www.tiktok.com/@user/video/1234" (fun w => w)
     0 true (fun _ => .http 200 ⟨some (-1), some ⟨"P", "C", "a", "t", "i"⟩⟩)
     (fun _ => none) true (by decide) rfl (by decide) rfl⟩

/-- C6. For every request whose (stripped) URL contains the short-link alias
`'vm.tiktok.com'` or `'vt.tiktok.com'` (which in particular holds when the
URL's host is one of these aliases), the handler invokes
`follow_tiktok_redirects` exactly once and hands exactly the URL it returns
to `fetch_from_tikwm` (app.py lines 232-241). -/
theorem shortlink_redirect_exactly_once (u : String) (resolve : String → String)
    (now : Nat) (writeOk : Bool) (upstream : String → UpstreamResponse)
    (st : CacheState)
    (hu : u ≠ "")
    (hvm : pyContains (pyStrip u) "vm.tiktok.com" = true
      ∨ pyContains (pyStrip u) "vt.tiktok.com" = true) :
    (download_tiktok (some [("url", u)]) resolve now writeOk upstream st).redirectCalls = 1
    ∧ (download_tiktok (some [("url", u)]) resolve now writeOk upstream st).fetchArg
        = some (resolve (pyStrip u)) := by
  have hcheck : shortlinkCheck (pyStrip u) = .ok true := by
    unfold shortlinkCheck
    rcases hvm with h | h <;> simp [h]
  rw [download_tiktok_on_valid u resolve now writeOk upstream st true hu hcheck]
  exact ⟨rfl, rfl⟩

/-- Witness for C6 on the short link `"https://vm.tiktok.com/ZMabc/"` with a
redirect oracle resolving it to a fixed long-form URL. -/
theorem shortlink_redirect_exactly_once_witness :
    ("https://vm.tiktok.com/ZMabc/" ≠ "")
    ∧ (pyContains (pyStrip "https://vm.tiktok.com/ZMabc/") "vm.tiktok.com" = true
      ∨ pyContains (pyStrip "https://vm.tiktok.com/ZMabc/") "vt.tiktok.com" = true)
    ∧ ((download_tiktok (some [("url", "https://vm.tiktok.com/ZMabc/")])
          (fun _ => "https://www.tiktok.com/@user/video/99") 0 true
          (fun _ => .transportError) (fun _ => none)).redirectCalls = 1
      ∧ (download_tiktok (some [("url", "https://vm.tiktok.com/ZMabc/")])
          (fun _ => "https://www.tiktok.com/@user/video/99") 0 true
          (fun _ => .transportError) (fun _ => none)).fetchArg
        = some ((fun _ => "https://www.tiktok.com/@user/video/99")
            (pyStrip "https://vm.tiktok.com/ZMabc/"))) :=
  ⟨by decide, Or.inl (by decide),
   shortlink_redirect_exactly_once "https://vm.tiktok.com/ZMabc/"
     (fun _ => "https://www.tiktok.com/@user/video/99") 0 true
     (fun _ => .transportError) (fun _ => none) (by decide) (Or.inl (by decide))⟩

/-- C5, counterexample.  The input URL `"https://m.tiktok.com/v/12345"`
contains the mobile alias `'m.tiktok.com'`; the alias rewriting of
app.py lines 80-82 would normalise it to
`"https://www.tiktok.com/v/12345"`, but that code lives in
`extract_tiktok_id`, which `download_tiktok` never calls.  The handler
instead runs the redirect probe, and when the probe falls back to the
original URL (modelled by the identity oracle, the documented behaviour on a
network failure), the URL handed to the cache-aside fetcher is the original,
still alias-carrying URL — not the normalised form the claim requires. -/
theorem handler_no_alias_rewrite_cex :
    pyContains "https://m.tiktok.com/v/12345" "m.tiktok.com" = true
    ∧ (download_tiktok (some [("url", "https://m.tiktok.com/v/12345")]) (fun w => w)
        0 true (fun _ => .transportError) (fun _ => none)).fetchArg
      = some "https://m.tiktok.com/v/12345"
    ∧ normalize_url "https://m.tiktok.com/v/12345" = "https://www.tiktok.com/v/12345"
    ∧ ("https://m.tiktok.com/v/12345" : String) ≠ "https://www.tiktok.com/v/12345" := by
  refine ⟨by decide, ?_, by decide, by decide⟩
  rfl

/-- C5, amended.  The request handler never string-rewrites domain aliases
(the rewriting of `extract_tiktok_id` is dead code on the request path).
For every (stripped) input URL matching the probe condition of
app.py lines 232-234 — which includes every URL hosted on a known
mobile/short alias such as `m.tiktok.com` or `vm.tiktok.com` — the handler
invokes the redirect probe once and hands the probe's returned URL, not an
alias-rewritten form, to the cache-aside fetcher. -/
theorem handler_alias_uses_redirect_probe (u : String) (resolve : String → String)
    (now : Nat) (writeOk : Bool) (upstream : String → UpstreamResponse)
    (st : CacheState)
    (hu : u ≠ "") (hcheck : shortlinkCheck (pyStrip u) = .ok true) :
    (download_tiktok (some [("url", u)]) resolve now writeOk upstream st).fetchArg
        = some (resolve (pyStrip u))
    ∧ (download_tiktok (some [("url", u)]) resolve now writeOk upstream st).redirectCalls = 1 := by
  rw [download_tiktok_on_valid u resolve now writeOk upstream st true hu hcheck]
  exact ⟨rfl, rfl⟩

/-- Witness for the amended C5 on `"https://m.tiktok.com/v/12345"` (host
`m.tiktok.com`, 12 characters, so the probe condition holds) with the
identity redirect oracle. -/
theorem handler_alias_uses_redirect_probe_witness :
    ("https://m.tiktok.com/v/12345" ≠ "")
    ∧ (shortlinkCheck (pyStrip "https://m.tiktok.com/v/12345") = .ok true)
    ∧ ((download_tiktok (some [("url", "https://m.tiktok.com/v/12345")]) (fun w => w)
          0 true (fun _ => .transportError) (fun _ => none)).fetchArg
        = some ((fun w => w) (pyStrip "https://m.tiktok.com/v/12345"))
      ∧ (download_tiktok (some [("url", "https://m.tiktok.com/v/12345")]) (fun w => w)
          0 true (fun _ => .transportError) (fun _ => none)).redirectCalls = 1) :=
  ⟨by decide, rfl,
   handler_alias_uses_redirect_probe "https://m.tiktok.com/v/12345" (fun w => w)
     0 true (fun _ => .transportError) (fun _ => none) (by decide) rfl⟩

/-- C9. For every request whose (stripped) URL contains `'//'` and whose
host component — the characters between `'//'` and the next `'/'` — is
shorter than 15 characters, the handler performs the redirect-following
probe (app.py lines 232-238); this includes already-canonical long-form
URLs, since `'www.tiktok.com'` is only 14 characters long. -/
theorem short_host_triggers_redirect_probe (u : String) (resolve : String → String)
    (now : Nat) (writeOk : Bool) (upstream : String → UpstreamResponse)
    (st : CacheState) (first afterHost : List Char) (rest : List (List Char))
    (hu : u ≠ "")
    (hsplit : splitDSlash (pyStrip u).data = first :: afterHost :: rest)
    (hhost : (takeUntilSlash afterHost).length < 15) :
    (download_tiktok (some [("url", u)]) resolve now writeOk upstream st).redirectCalls = 1 := by
  have hcheck : shortlinkCheck (pyStrip u) = .ok true := by
    unfold shortlinkCheck
    by_cases hc : (pyContains (pyStrip u) "vm.tiktok.com"
        || pyContains (pyStrip u) "vt.tiktok.com") = true
    · simp [hc]
    · have hc' : (pyContains (pyStrip u) "vm.tiktok.com"
          || pyContains (pyStrip u) "vt.tiktok.com") = false := by
        simpa using hc
      simp only [hc', Bool.false_eq_true, if_false, hsplit]
      simp [hhost]
  rw [download_tiktok_on_valid u resolve now writeOk upstream st true hu hcheck]
  rfl

/-- Witness for C9 on the canonical URL
`"https://www.tiktok.com/@user/video/1234"`: its host is 14 characters
long, so the probe runs even though no short link is involved. -/
theorem short_host_triggers_redirect_probe_witness :
    ("https://www.tiktok.com/@user/video/1234" ≠ "")
    ∧ (splitDSlash (pyStrip "https://www.tiktok.com/@user/video/1234").data
        = ["https:".data, "www.tiktok.com/@user/video/1234".data])
    ∧ ((takeUntilSlash "www.tiktok.com/@user/video/1234".data).length = 14)
    ∧ ((takeUntilSlash "www.tiktok.com/@user/video/1234".data).length < 15)
    ∧ (download_tiktok (some [("url", "https://www.tiktok.com/@user/video/1234")])
        (fun w => w) 0 true (fun _ => .transportError) (fun _ => none)).redirectCalls = 1 :=
  ⟨by decide, by decide, by decide, by decide,
   short_host_triggers_redirect_probe "https://www.tiktok.com/@user/video/1234"
     (fun w => w) 0 true (fun _ => .transportError) (fun _ => none)
     "https:".data "www.tiktok.com/@user/video/1234".data [] (by decide) (by decide)
     (by decide)⟩

lemma splitDSlashAux_no_dslash : ∀ (s acc : List Char), containsDSlash s = false →
    splitDSlashAux acc s = [acc.reverse ++ s]
  | [], acc, _ => by simp [splitDSlashAux]
  | [c], acc, _ => by simp [splitDSlashAux]
  | c1 :: c2 :: rest, acc, h => by
    simp only [containsDSlash, Bool.or_eq_false_iff] at h
    obtain ⟨h1, h2⟩ := h
    unfold splitDSlashAux
    rw [if_neg (by simp [h1])]
    rw [splitDSlashAux_no_dslash (c2 :: rest) (c1 :: acc) h2]
    simp

lemma splitDSlash_no_dslash (s : List Char) (h : containsDSlash s = false) :
    splitDSlash s = [s] := by
  rw [splitDSlash, splitDSlashAux_no_dslash s [] h]
  simp

/-- C10. For every POST request whose `url` parameter is a non-empty string
whose stripped form contains neither `'vm.tiktok.com'` nor `'vt.tiktok.com'`
and contains no `'//'` substring (e.g. `'tiktok.com/@user/video/1'`), the
short-link test `url.split('//')[1]` (app.py line 234) indexes past the end
of the one-element split result, so the handler raises an uncaught
`IndexError` instead of reaching its 400/500 JSON error responses. -/
theorem no_dslash_raises_index_error (p : Dict) (u : String)
    (resolve : String → String) (now : Nat) (writeOk : Bool)
    (upstream : String → UpstreamResponse) (st : CacheState)
    (hp : List.lookup "url" p = some u) (hu : u ≠ "")
    (hvm : pyContains (pyStrip u) "vm.tiktok.com" = false)
    (hvt : pyContains (pyStrip u) "vt.tiktok.com" = false)
    (hnods : containsDSlash (pyStrip u).data = false) :
    (download_tiktok (some p) resolve now writeOk upstream st).resp
      = .error "IndexError" := by
  have hcheck : shortlinkCheck (pyStrip u) = .error "IndexError" := by
    unfold shortlinkCheck
    rw [splitDSlash_no_dslash _ hnods]
    simp [hvm, hvt]
  have hpne : p.isEmpty = false := by
    cases p with
    | nil => simp [List.lookup] at hp
    | cons a l => rfl
  unfold download_tiktok validateUrl
  simp [hp, hu, hpne, hcheck]

/-- Witness for C10 on the protocol-less URL `'tiktok.com/@user/video/1'`
from the claim. -/
theorem no_dslash_raises_index_error_witness :
    (List.lookup "url" [("url", "tiktok.com/@user/video/1")]
        = some "tiktok.com/@user/video/1")
    ∧ ("tiktok.com/@user/video/1" ≠ "")
    ∧ (pyContains (pyStrip "tiktok.com/@user/video/1") "vm.tiktok.com" = false)
    ∧ (pyContains (pyStrip "tiktok.com/@user/video/1") "vt.tiktok.com" = false)
    ∧ (containsDSlash (pyStrip "tiktok.com/@user/video/1").data = false)
    ∧ (download_tiktok (some [("url", "tiktok.com/@user/video/1")]) (fun w => w)
        0 true (fun _ => .transportError) (fun _ => none)).resp
      = .error "IndexError" :=
  ⟨by decide, by decide, by decide, by decide, by decide,
   no_dslash_raises_index_error [("url", "tiktok.com/@user/video/1")]
     "tiktok.com/@user/video/1" (fun w => w) 0 true (fun _ => .transportError)
     (fun _ => none) (by decide) (by decide) (by decide) (by decide) (by decide)⟩

/-- C7. End-to-end success: for the POST body
`{"url": "https://www.tiktok.com/@user/video/1234"}`, a cold cache for the
fetched URL, and an upstream answering HTTP 200 with `code = 0` and a
well-formed `data` object (per the spec's FetchResult, well-formed includes
a non-empty `play` URL), the handler responds with HTTP 200 and a body whose
`success` field is `true` and whose `video_url` field equals the upstream's
`data.play` field (app.py lines 167-174 and 243-256). -/
theorem end_to_end_success (resolve : String → String) (now : Nat)
    (writeOk : Bool) (upstream : String → UpstreamResponse) (st : CacheState)
    (d : UpstreamData)
    (hplay : d.play ≠ "")
    (hup : upstream (resolve (pyStrip "https://www.tiktok.com/@user/video/1234"))
      = .http 200 ⟨some 0, some d⟩)
    (hmiss : st (cacheKey (resolve (pyStrip "https://www.tiktok.com/@user/video/1234")))
      = none) :
    (download_tiktok (some [("url", "https://www.tiktok.com/@user/video/1234")])
        resolve now writeOk upstream st).resp
      = .ok (200, [("success", .b true), ("video_url", .s d.play),
                   ("cover_url", .s d.cover), ("author", .s d.author_unique_id),
                   ("desc", .s d.title), ("video_id", .s d.id),
                   ("method", .s "tikwm")])
    ∧ List.lookup "success"
        [("success", JVal.b true), ("video_url", JVal.s d.play),
         ("cover_url", JVal.s d.cover), ("author", JVal.s d.author_unique_id),
         ("desc", JVal.s d.title), ("video_id", JVal.s d.id),
         ("method", JVal.s "tikwm")] = some (.b true)
    ∧ List.lookup "video_url"
        [("success", JVal.b true), ("video_url", JVal.s d.play),
         ("cover_url", JVal.s d.cover), ("author", JVal.s d.author_unique_id),
         ("desc", JVal.s d.title), ("video_id", JVal.s d.id),
         ("method", JVal.s "tikwm")] = some (.s d.play) := by
  have hcheck : shortlinkCheck (pyStrip "https://www.tiktok.com/@user/video/1234")
      = .ok true := rfl
  have hfc : freshCached now st
      (resolve (pyStrip "https://www.tiktok.com/@user/video/1234")) = none := by
    unfold freshCached
    rw [hmiss]
  rw [download_tiktok_on_valid "https://www.tiktok.com/@user/video/1234" resolve now
    writeOk upstream st true (by decide) hcheck]
  simp only [if_true]
  rw [cache_result_miss now writeOk st _ _ hfc]
  refine ⟨?_, by simp [List.lookup], by simp [List.lookup]⟩
  simp [hup, fetch_from_tikwm_raw, makeResponse, List.lookup, hplay]

/-- Witness for C7 with the identity redirect oracle, a cold cache, and the
concrete upstream data object `⟨"P", "C", "a", "t", "i"⟩`. -/
theorem end_to_end_success_witness :
    (("P" : String) ≠ "")
    ∧ ((fun _ => .http 200 ⟨some 0, some ⟨"P", "C", "a", "t", "i"⟩⟩ :
          String → UpstreamResponse)
        ((fun w => w) (pyStrip "https://www.tiktok.com/@user/video/1234"))
      = .http 200 ⟨some 0, some ⟨"P", "C", "a", "t", "i"⟩⟩)
    ∧ ((download_tiktok (some [("url", "https://www.tiktok.com/@user/video/1234")])
          (fun w => w) 0 true
          (fun _ => .http 200 ⟨some 0, some ⟨"P", "C", "a", "t", "i"⟩⟩)
          (fun _ => none)).resp
        = .ok (200, [("success", .b true), ("video_url", .s "P"),
                     ("cover_url", .s "C"), ("author", .s "a"),
                     ("desc", .s "t"), ("video_id", .s "i"),
                     ("method", .s "tikwm")])
      ∧ List.lookup "success"
          [("success", JVal.b true), ("video_url", JVal.s "P"),
           ("cover_url", JVal.s "C"), ("author", JVal.s "a"),
           ("desc", JVal.s "t"), ("video_id", JVal.s "i"),
           ("method", JVal.s "tikwm")] = some (.b true)
      ∧ List.lookup "video_url"
          [("success", JVal.b true), ("video_url", JVal.s "P"),
           ("cover_url", JVal.s "C"), ("author", JVal.s "a"),
           ("desc", JVal.s "t"), ("video_id", JVal.s "i"),
           ("method", JVal.s "tikwm")] = some (.s "P")) :=
  ⟨by decide, rfl,
   end_to_end_success (fun w => w) 0 true
     (fun _ => .http 200 ⟨some 0, some ⟨"P", "C", "a", "t", "i"⟩⟩)
     (fun _ => none) ⟨"P", "C", "a", "t", "i"⟩ (by decide) rfl rfl⟩

end Tikwm
